import Mathlib

/-!
Shallow embedding of `src/volition_core.py` from the
gabe-autonomous-slack-agent repository: the admission/rate-limiting
engine (`VolitionCore.handle_intent`) and its bounded event store
(`InMemoryVolitionStore`).

Modelling conventions:
* `datetime` instants and `timedelta` durations are integers counting
  microseconds (Python's `timedelta` resolution); `int(td.total_seconds())`
  truncates toward zero, modelled with `Int.tdiv` by `1000000`.
* The injected clock is modelled by passing the captured `now` value
  explicitly to `handle_intent` (the source reads the clock exactly once,
  at the top of the call).
* The `deque(maxlen=...)` store is a list of records, oldest first;
  appending drops from the left whatever exceeds the capacity.
* Python's `str.strip()` is modelled by dropping whitespace characters
  from both ends of the string.
* Mutation is modelled by returning the updated engine state alongside
  the `IntentResult`.
-/

namespace Volition

/-- Python `str.strip()` on the underlying character list. -/
def stripChars (l : List Char) : List Char :=
  ((l.dropWhile Char.isWhitespace).reverse.dropWhile Char.isWhitespace).reverse

/-- Python `str.strip()`: remove leading and trailing whitespace. -/
def pyStrip (s : String) : String :=
  ⟨stripChars s.data⟩

/-- `IntentRecord` frozen dataclass: one accepted (or candidate) intent. -/
structure IntentRecord where
  user_id : String
  team_id : String
  text : String
  timestamp : Int
  correlation_id : String
deriving DecidableEq, Repr

/-- `IntentResult` frozen dataclass: the outcome of one `handle_intent` call. -/
structure IntentResult where
  accepted : Bool
  message : String
  memory : List IntentRecord
deriving DecidableEq, Repr

/-- `InMemoryVolitionStore`: a `deque(maxlen=max_events)` of records,
oldest first. -/
structure InMemoryVolitionStore where
  max_events : Nat
  events : List IntentRecord
deriving DecidableEq, Repr

/-- `deque.append` with `maxlen`: add on the right, drop from the left
whatever exceeds the capacity. -/
def InMemoryVolitionStore.append (s : InMemoryVolitionStore)
    (record : IntentRecord) : InMemoryVolitionStore :=
  ⟨s.max_events, (s.events ++ [record]).drop ((s.events ++ [record]).length - s.max_events)⟩

/-- `recent(limit=5)`: reversed copy of the events, truncated to `limit`
(newest first). -/
def InMemoryVolitionStore.recent (s : InMemoryVolitionStore)
    (limit : Nat := 5) : List IntentRecord :=
  s.events.reverse.take limit

/-- `last_for_user`: scan the events newest-to-oldest for the first record
of this user. -/
def InMemoryVolitionStore.last_for_user (s : InMemoryVolitionStore)
    (user_id : String) : Option IntentRecord :=
  s.events.reverse.find? (fun record => record.user_id == user_id)

/-- `VolitionCore` configuration and state.  Durations are microseconds;
the source defaults are `duplicate_window = 3 min` and `cooldown = 20 s`. -/
structure VolitionCore where
  store : InMemoryVolitionStore
  duplicate_window : Int
  cooldown : Int
  trusted_workspace_ids : List String
deriving DecidableEq, Repr

/-- Microseconds per second: the divisor realising `total_seconds()`. -/
def microsecondsPerSecond : Int := 1000000

/-- The untrusted-workspace rejection message of the source. -/
def trustMessage : String :=
  "I am scoped to trusted workspaces only. Ask an admin to add this workspace to TRUSTED_WORKSPACE_IDS."

/-- The duplicate rejection message of the source. -/
def duplicateMessage : String :=
  "I already have that request on my queue."

/-- The cooldown rejection message of the source, parametrised by the
remaining whole seconds. -/
def cooldownMessage (remaining : Int) : String :=
  "Hold on — give me about " ++ toString remaining ++ " more seconds before sending another instruction."

/-- The acceptance acknowledgement message of the source. -/
def ackMessage : String :=
  "Intent acknowledged. Logging it to my volition ledger now."

/-- The acceptance branch of `handle_intent`: build the record from the
captured `now` and the given fields, append it, and acknowledge. -/
def VolitionCore.accept_intent (c : VolitionCore) (now : Int)
    (user_id team_id text correlation_id : String) :
    IntentResult × VolitionCore :=
  let record : IntentRecord := ⟨user_id, team_id, text, now, correlation_id⟩
  let store2 := c.store.append record
  (⟨true, ackMessage, store2.recent 5⟩,
   ⟨store2, c.duplicate_window, c.cooldown, c.trusted_workspace_ids⟩)

/-- `handle_intent` after the trust check: duplicate check, cooldown
check, then acceptance. -/
def VolitionCore.rate_limit_and_accept (c : VolitionCore) (now : Int)
    (user_id team_id text correlation_id : String) :
    IntentResult × VolitionCore :=
  match c.store.last_for_user user_id with
  | some last =>
    if pyStrip last.text = pyStrip text ∧ now - last.timestamp ≤ c.duplicate_window then
      (⟨false, duplicateMessage, c.store.recent 5⟩, c)
    else if now - last.timestamp ≤ c.cooldown then
      (⟨false,
        cooldownMessage (Int.tdiv (c.cooldown - (now - last.timestamp)) microsecondsPerSecond),
        c.store.recent 5⟩, c)
    else
      c.accept_intent now user_id team_id text correlation_id
  | none =>
    c.accept_intent now user_id team_id text correlation_id

/-- `VolitionCore.handle_intent`, with `now` the value the source reads
from the injected clock once at the top of the call.  Returns the
`IntentResult` together with the post-call engine state. -/
def VolitionCore.handle_intent (c : VolitionCore) (now : Int)
    (user_id team_id text correlation_id : String) :
    IntentResult × VolitionCore :=
  if c.trusted_workspace_ids ≠ [] ∧ team_id ∉ c.trusted_workspace_ids then
    (⟨false, trustMessage, c.store.recent 5⟩, c)
  else
    c.rate_limit_and_accept now user_id team_id text correlation_id

/-- The trust check of rule 1 passes: the trusted set is empty or
contains `team_id`. -/
def trustPasses (c : VolitionCore) (team_id : String) : Prop :=
  c.trusted_workspace_ids = [] ∨ team_id ∈ c.trusted_workspace_ids

instance (c : VolitionCore) (team_id : String) :
    Decidable (trustPasses c team_id) := by
  unfold trustPasses; infer_instance

/-! Helper lemmas -/

theorem trust_cond_false (c : VolitionCore) (team_id : String)
    (h : trustPasses c team_id) :
    ¬(c.trusted_workspace_ids ≠ [] ∧ team_id ∉ c.trusted_workspace_ids) := by
  rintro ⟨h1, h2⟩
  rcases h with h | h
  · exact h1 h
  · exact h2 h

theorem handle_intent_of_trustPasses (c : VolitionCore) (now : Int)
    (u team x cid : String) (h : trustPasses c team) :
    c.handle_intent now u team x cid = c.rate_limit_and_accept now u team x cid := by
  unfold VolitionCore.handle_intent
  rw [if_neg (trust_cond_false c team h)]

theorem length_append_events (s : InMemoryVolitionStore) (r : IntentRecord) :
    (s.append r).events.length = min (s.events.length + 1) s.max_events := by
  simp only [InMemoryVolitionStore.append, List.length_drop, List.length_append,
    List.length_singleton]
  omega

theorem append_eq_of_lt (s : InMemoryVolitionStore) (r : IntentRecord)
    (h : s.events.length < s.max_events) :
    s.append r = ⟨s.max_events, s.events ++ [r]⟩ := by
  simp only [InMemoryVolitionStore.append, InMemoryVolitionStore.mk.injEq, true_and]
  have h0 : (s.events ++ [r]).length - s.max_events = 0 := by
    simp only [List.length_append, List.length_singleton]; omega
  rw [h0, List.drop_zero]

theorem append_events_of_lt (s : InMemoryVolitionStore) (r : IntentRecord)
    (h : s.events.length < s.max_events) :
    (s.append r).events = s.events ++ [r] := by
  rw [append_eq_of_lt s r h]

theorem append_events_of_full (s : InMemoryVolitionStore) (r : IntentRecord)
    (hfull : s.events.length = s.max_events) (hpos : 0 < s.max_events) :
    (s.append r).events = s.events.drop 1 ++ [r] := by
  simp only [InMemoryVolitionStore.append]
  have h1 : (s.events ++ [r]).length - s.max_events = 1 := by
    simp only [List.length_append, List.length_singleton]; omega
  rw [h1, List.drop_append_of_le_length (by omega)]

theorem append_max_events (s : InMemoryVolitionStore) (r : IntentRecord) :
    (s.append r).max_events = s.max_events := rfl

theorem append_length_le (s : InMemoryVolitionStore) (r : IntentRecord) :
    (s.append r).events.length ≤ s.max_events := by
  rw [length_append_events]; omega

theorem foldl_append_length_le (records : List IntentRecord)
    (s : InMemoryVolitionStore) (h : s.events.length ≤ s.max_events) :
    (records.foldl InMemoryVolitionStore.append s).events.length ≤ s.max_events := by
  induction records generalizing s with
  | nil => exact h
  | cons r rs ih =>
    rw [List.foldl_cons]
    exact ih (s.append r) (append_length_le s r)

/-! Claim theorems: the event store (C5, C6, C7) -/

/-- C5: over every sequence of appends starting from an empty store of
capacity `cap`, the size stays at most `cap`; a single append never takes
the size above the capacity; and an append at (positive) capacity evicts
exactly the single oldest record, preserving the order of the survivors
(`s.events.drop 1`) with the new record as newest. -/
theorem capacity_invariant_and_fifo_eviction (cap : Nat)
    (records : List IntentRecord) (s : InMemoryVolitionStore) (r : IntentRecord) :
    (records.foldl InMemoryVolitionStore.append ⟨cap, []⟩).events.length ≤ cap
    ∧ (s.append r).events.length ≤ s.max_events
    ∧ (s.events.length = s.max_events → 0 < s.max_events →
        (s.append r).events = s.events.drop 1 ++ [r]) :=
  ⟨foldl_append_length_le records ⟨cap, []⟩ (Nat.zero_le cap),
   append_length_le s r,
   fun hfull hpos => append_events_of_full s r hfull hpos⟩

def c5store : InMemoryVolitionStore :=
  ⟨2, [⟨"U1", "T1", "a", 0, "c1"⟩, ⟨"U2", "T1", "b", 1, "c2"⟩]⟩

def c5record : IntentRecord := ⟨"U3", "T1", "c", 2, "c3"⟩

/-- C5 witness: appending to a concrete store at capacity 2 evicts
exactly the oldest record and keeps the order of the survivors. -/
theorem capacity_invariant_and_fifo_eviction_witness :
    (c5store.append c5record).events = c5store.events.drop 1 ++ [c5record] :=
  (capacity_invariant_and_fifo_eviction 2 [] c5store c5record).2.2 rfl (by decide)

/-- The spec's description of `last_for_user`: the chronologically last
element of the sub-sequence of records belonging to this user. -/
def last_for_user_spec (s : InMemoryVolitionStore) (user_id : String) :
    Option IntentRecord :=
  (s.events.filter (fun record => record.user_id == user_id)).getLast?

/-- C6: `last_for_user` returns the most-recently-appended record of the
given user — the last element of the user's records in insertion order —
and `none` when the user has no record; other users' interleaved records
are irrelevant (they are filtered away), and the function reads the store
without modifying it. -/
theorem last_for_user_correct (s : InMemoryVolitionStore) (user_id : String) :
    s.last_for_user user_id = last_for_user_spec s user_id := by
  rw [InMemoryVolitionStore.last_for_user, last_for_user_spec,
    List.getLast?_eq_head?_reverse, ← List.filter_reverse, List.filter_head?]

/-- C7: `recent n` is the reversed event list truncated to `n`
(newest first), its length is `min n (number of records)`, and each of its
positions agrees with the reversed event list — so it is the stored
records in strict reverse-insertion order, all of them when fewer than `n`
exist; the function does not modify the store. -/
theorem recent_correct (s : InMemoryVolitionStore) (n : Nat) :
    s.recent n = s.events.reverse.take n
    ∧ (s.recent n).length = min n s.events.length
    ∧ ∀ i, i < n → (s.recent n)[i]? = s.events.reverse[i]? := by
  refine ⟨rfl, ?_, ?_⟩
  · simp [InMemoryVolitionStore.recent]
  · intro i hi
    simp only [InMemoryVolitionStore.recent]
    exact List.getElem?_take_of_lt hi

def c7store : InMemoryVolitionStore :=
  ⟨200, [⟨"U1", "T1", "a", 0, "c1"⟩, ⟨"U2", "T1", "b", 1, "c2"⟩]⟩

/-- C7 witness: on a concrete two-record store, position 0 of `recent 5`
is the newest record. -/
theorem recent_correct_witness :
    (c7store.recent 5)[0]? = c7store.events.reverse[0]? :=
  (recent_correct c7store 5).2.2 0 (by decide)

/-! Branch lemmas for the admission engine -/

theorem rate_limit_of_none (c : VolitionCore) (now : Int) (u team x cid : String)
    (h : c.store.last_for_user u = none) :
    c.rate_limit_and_accept now u team x cid =
      c.accept_intent now u team x cid := by
  unfold VolitionCore.rate_limit_and_accept
  rw [h]

theorem rate_limit_duplicate (c : VolitionCore) (now : Int) (u team x cid : String)
    (last : IntentRecord) (hlast : c.store.last_for_user u = some last)
    (htext : pyStrip last.text = pyStrip x)
    (hwin : now - last.timestamp ≤ c.duplicate_window) :
    c.rate_limit_and_accept now u team x cid =
      (⟨false, duplicateMessage, c.store.recent 5⟩, c) := by
  unfold VolitionCore.rate_limit_and_accept
  rw [hlast]
  dsimp only
  rw [if_pos ⟨htext, hwin⟩]

theorem rate_limit_cooldown (c : VolitionCore) (now : Int) (u team x cid : String)
    (last : IntentRecord) (hlast : c.store.last_for_user u = some last)
    (hnodup : ¬(pyStrip last.text = pyStrip x ∧ now - last.timestamp ≤ c.duplicate_window))
    (hcool : now - last.timestamp ≤ c.cooldown) :
    c.rate_limit_and_accept now u team x cid =
      (⟨false,
        cooldownMessage (Int.tdiv (c.cooldown - (now - last.timestamp)) microsecondsPerSecond),
        c.store.recent 5⟩, c) := by
  unfold VolitionCore.rate_limit_and_accept
  rw [hlast]
  dsimp only
  rw [if_neg hnodup, if_pos hcool]

theorem rate_limit_elapsed (c : VolitionCore) (now : Int) (u team x cid : String)
    (last : IntentRecord) (hlast : c.store.last_for_user u = some last)
    (hnodup : ¬(pyStrip last.text = pyStrip x ∧ now - last.timestamp ≤ c.duplicate_window))
    (hcool : ¬ now - last.timestamp ≤ c.cooldown) :
    c.rate_limit_and_accept now u team x cid =
      c.accept_intent now u team x cid := by
  unfold VolitionCore.rate_limit_and_accept
  rw [hlast]
  dsimp only
  rw [if_neg hnodup, if_neg hcool]

/-! Claim theorems: the admission engine -/

/-- C4: when the trusted-workspace set is non-empty and `team_id` is not
in it, `handle_intent` rejects with the scoped-to-trusted-workspaces
message, leaves the engine (and so the store) unchanged, and returns the
store's current `recent()` snapshot as memory; when the trusted set is
empty the trust rule never fires — the call proceeds to the
duplicate/cooldown stage on the unchanged state. -/
theorem trust_check_behaviour (c : VolitionCore) (now : Int)
    (u team x cid : String) :
    ((c.trusted_workspace_ids ≠ [] ∧ team ∉ c.trusted_workspace_ids) →
      c.handle_intent now u team x cid = (⟨false, trustMessage, c.store.recent 5⟩, c))
    ∧ (c.trusted_workspace_ids = [] →
      c.handle_intent now u team x cid = c.rate_limit_and_accept now u team x cid) := by
  constructor
  · intro h
    unfold VolitionCore.handle_intent
    rw [if_pos h]
  · intro h
    exact handle_intent_of_trustPasses c now u team x cid (Or.inl h)

def c4core : VolitionCore := ⟨⟨200, []⟩, 180000000, 20000000, ["T1"]⟩

/-- C4 witness: with trusted set `["T1"]`, a call from team `"T2"` is
rejected by the trust rule with the state unchanged. -/
theorem trust_check_behaviour_witness :
    c4core.handle_intent 0 "U1" "T2" "hello" "cid" =
      (⟨false, trustMessage, c4core.store.recent 5⟩, c4core) :=
  (trust_check_behaviour c4core 0 "U1" "T2" "hello" "cid").1 (by decide)

/-- C2: with the trust check passed and a last record for the user whose
stripped text equals the stripped incoming text within
`duplicate_window`, `handle_intent` rejects with the duplicate message
and changes nothing.  No hypothesis about `cooldown` is needed: the
result is the duplicate rejection even when `now - last.timestamp` is
also within the cooldown window, so rule 2a takes priority over 2b. -/
theorem duplicate_rejection (c : VolitionCore) (now : Int)
    (u team x cid : String) (last : IntentRecord)
    (htrust : trustPasses c team)
    (hlast : c.store.last_for_user u = some last)
    (htext : pyStrip last.text = pyStrip x)
    (hwin : now - last.timestamp ≤ c.duplicate_window) :
    c.handle_intent now u team x cid =
      (⟨false, duplicateMessage, c.store.recent 5⟩, c) := by
  rw [handle_intent_of_trustPasses c now u team x cid htrust]
  exact rate_limit_duplicate c now u team x cid last hlast htext hwin

def c2record : IntentRecord := ⟨"U1", "T1", "X", 0, "c1"⟩

def c2core : VolitionCore := ⟨⟨200, [c2record]⟩, 300000000, 45000000, []⟩

/-- C2 witness: with `duplicate_window = 5 min`, resending `"X"` 60
seconds after an accepted `"X"` — inside the 45-second cooldown as well —
is rejected as a duplicate with the store unchanged. -/
theorem duplicate_rejection_witness :
    c2core.handle_intent 60000000 "U1" "T1" "X" "c2" =
      (⟨false, duplicateMessage, c2core.store.recent 5⟩, c2core) :=
  duplicate_rejection c2core 60000000 "U1" "T1" "X" "c2" c2record
    (Or.inl rfl) rfl rfl (by decide)

/-- C3: with the trust check passed, a last record for the user, the
duplicate rule not applying, and `now - last.timestamp ≤ cooldown`,
`handle_intent` rejects with the cooldown message and changes nothing;
the reported remaining seconds `k` are the floor of the remaining
duration in whole seconds: `k * 10^6 ≤ cooldown - (now - last.timestamp)
< (k + 1) * 10^6` and `k ≥ 0`. -/
theorem cooldown_rejection (c : VolitionCore) (now : Int)
    (u team x cid : String) (last : IntentRecord)
    (htrust : trustPasses c team)
    (hlast : c.store.last_for_user u = some last)
    (hnodup : ¬(pyStrip last.text = pyStrip x ∧ now - last.timestamp ≤ c.duplicate_window))
    (hcool : now - last.timestamp ≤ c.cooldown) :
    c.handle_intent now u team x cid =
      (⟨false,
        cooldownMessage (Int.tdiv (c.cooldown - (now - last.timestamp)) microsecondsPerSecond),
        c.store.recent 5⟩, c)
    ∧ Int.tdiv (c.cooldown - (now - last.timestamp)) microsecondsPerSecond * microsecondsPerSecond
        ≤ c.cooldown - (now - last.timestamp)
    ∧ c.cooldown - (now - last.timestamp)
        < (Int.tdiv (c.cooldown - (now - last.timestamp)) microsecondsPerSecond + 1) * microsecondsPerSecond
    ∧ 0 ≤ Int.tdiv (c.cooldown - (now - last.timestamp)) microsecondsPerSecond := by
  have hrem : (0 : Int) ≤ c.cooldown - (now - last.timestamp) := by omega
  have hdiv : Int.tdiv (c.cooldown - (now - last.timestamp)) microsecondsPerSecond
      = (c.cooldown - (now - last.timestamp)) / microsecondsPerSecond :=
    Int.tdiv_eq_ediv hrem (by norm_num [microsecondsPerSecond])
  refine ⟨?_, ?_, ?_, ?_⟩
  · rw [handle_intent_of_trustPasses c now u team x cid htrust]
    exact rate_limit_cooldown c now u team x cid last hlast hnodup hcool
  · rw [hdiv]; unfold microsecondsPerSecond at *; omega
  · rw [hdiv]; unfold microsecondsPerSecond at *; omega
  · rw [hdiv]; unfold microsecondsPerSecond at *; omega

def c3record : IntentRecord := ⟨"U1", "T1", "X", 0, "c1"⟩

def c3core : VolitionCore := ⟨⟨200, [c3record]⟩, 300000000, 45000000, []⟩

/-- C3 witness: with `cooldown = 45 s`, a different text `"Y"` sent 20
seconds after an accepted intent is rejected with 25 remaining seconds
reported and the store unchanged. -/
theorem cooldown_rejection_witness :
    c3core.handle_intent 20000000 "U1" "T1" "Y" "c2" =
      (⟨false, cooldownMessage 25, c3core.store.recent 5⟩, c3core) :=
  (cooldown_rejection c3core 20000000 "U1" "T1" "Y" "c2" c3record
    (Or.inl rfl) rfl (by decide) (by decide)).1

def c1record : IntentRecord := ⟨"V9", "T1", "other", 0, "c0"⟩

def c1full : VolitionCore := ⟨⟨1, [c1record]⟩, 180000000, 20000000, []⟩

/-- C1 counterexample: in a state where the trust check passes (empty
trusted set) and `last_for_user "U1"` is absent, but the store is at its
capacity of 1 with another user's record, the call is accepted yet the
store's size does not increase by 1 — the oldest record is evicted, so
the size stays 1. -/
theorem accept_fresh_counterexample :
    c1full.store.last_for_user "U1" = none
    ∧ (c1full.handle_intent 1000000 "U1" "T1" "hello" "cid").1.accepted = true
    ∧ (c1full.handle_intent 1000000 "U1" "T1" "hello" "cid").2.store.events.length
        = c1full.store.events.length := by
  decide

/-- C1 (amended): with the trust check passed, no prior record for the
user, and the store strictly below capacity, `handle_intent` builds the
record from the captured `now` and the given fields, appends it, and
returns accepted=true with the acknowledgement message; the size
increases by 1 and the first element of the returned memory is the new
record.  (At capacity the append still happens but evicts the oldest
record, leaving the size unchanged.) -/
theorem accept_fresh_below_capacity (c : VolitionCore) (now : Int)
    (u team x cid : String)
    (htrust : trustPasses c team)
    (hnone : c.store.last_for_user u = none)
    (hroom : c.store.events.length < c.store.max_events) :
    c.handle_intent now u team x cid =
      (⟨true, ackMessage, ((c.store.events ++ [(⟨u, team, x, now, cid⟩ : IntentRecord)]).reverse.take 5)⟩,
       ⟨⟨c.store.max_events, c.store.events ++ [⟨u, team, x, now, cid⟩]⟩,
        c.duplicate_window, c.cooldown, c.trusted_workspace_ids⟩)
    ∧ (c.handle_intent now u team x cid).2.store.events.length
        = c.store.events.length + 1
    ∧ (c.handle_intent now u team x cid).1.memory.head?
        = some ⟨u, team, x, now, cid⟩ := by
  have hmain : c.handle_intent now u team x cid =
      (⟨true, ackMessage, ((c.store.events ++ [(⟨u, team, x, now, cid⟩ : IntentRecord)]).reverse.take 5)⟩,
       ⟨⟨c.store.max_events, c.store.events ++ [⟨u, team, x, now, cid⟩]⟩,
        c.duplicate_window, c.cooldown, c.trusted_workspace_ids⟩) := by
    rw [handle_intent_of_trustPasses c now u team x cid htrust,
      rate_limit_of_none c now u team x cid hnone]
    unfold VolitionCore.accept_intent
    dsimp only
    rw [append_eq_of_lt c.store _ hroom]
    rfl
  refine ⟨hmain, ?_, ?_⟩
  · rw [hmain]
    simp
  · rw [hmain]
    simp

def c1fresh : VolitionCore := ⟨⟨200, [c1record]⟩, 180000000, 20000000, []⟩

/-- C1 witness: below capacity, a fresh user's intent is accepted and the
store size grows from 1 to 2 with the new record first in memory. -/
theorem accept_fresh_below_capacity_witness :
    (c1fresh.handle_intent 1000000 "U1" "T1" "hello" "cid").2.store.events.length
        = c1fresh.store.events.length + 1
    ∧ (c1fresh.handle_intent 1000000 "U1" "T1" "hello" "cid").1.memory.head?
        = some ⟨"U1", "T1", "hello", 1000000, "cid"⟩ :=
  ⟨(accept_fresh_below_capacity c1fresh 1000000 "U1" "T1" "hello" "cid"
      (Or.inl rfl) (by decide) (by decide)).2.1,
   (accept_fresh_below_capacity c1fresh 1000000 "U1" "T1" "hello" "cid"
      (Or.inl rfl) (by decide) (by decide)).2.2⟩

/-- C8: `handle_intent` is a total function — every rejection is an
ordinary result with accepted=false and one of the fixed human-readable
messages, never an exception; whenever the result is not accepted the
whole engine state (store included) is unchanged; and in every branch the
returned memory is `recent 5` of the post-call store (after the append
when the call accepts, of the untouched store when it rejects). -/
theorem handle_intent_total_behaviour (c : VolitionCore) (now : Int)
    (u team x cid : String) :
    ((c.handle_intent now u team x cid).1.accepted = false →
      (c.handle_intent now u team x cid).2 = c)
    ∧ (c.handle_intent now u team x cid).1.memory
        = (c.handle_intent now u team x cid).2.store.recent 5
    ∧ ((c.handle_intent now u team x cid).1.accepted = true →
      (c.handle_intent now u team x cid).2.store
        = c.store.append ⟨u, team, x, now, cid⟩) := by
  unfold VolitionCore.handle_intent VolitionCore.rate_limit_and_accept
    VolitionCore.accept_intent
  split
  · exact ⟨fun _ => rfl, rfl, fun h => absurd h (by simp)⟩
  · split
    · split
      · exact ⟨fun _ => rfl, rfl, fun h => absurd h (by simp)⟩
      · split
        · exact ⟨fun _ => rfl, rfl, fun h => absurd h (by simp)⟩
        · exact ⟨fun h => absurd h (by simp), rfl, fun _ => rfl⟩
    · exact ⟨fun h => absurd h (by simp), rfl, fun _ => rfl⟩

def c8core : VolitionCore := ⟨⟨200, [c2record]⟩, 300000000, 45000000, []⟩

/-- C8 witness: on a concrete rejected call the state is unchanged and
the memory equals the post-call `recent 5` snapshot. -/
theorem handle_intent_total_behaviour_witness :
    (c8core.handle_intent 60000000 "U1" "T1" "X" "c9").2 = c8core
    ∧ (c8core.handle_intent 60000000 "U1" "T1" "X" "c9").1.memory
        = (c8core.handle_intent 60000000 "U1" "T1" "X" "c9").2.store.recent 5 :=
  ⟨(handle_intent_total_behaviour c8core 60000000 "U1" "T1" "X" "c9").1 (by decide),
   (handle_intent_total_behaviour c8core 60000000 "U1" "T1" "X" "c9").2.1⟩

/-- C9: at the exact cooldown boundary (`now - last.timestamp = cooldown`,
trust passed, duplicate rule not applying) `handle_intent` still rejects
and reports 0 remaining seconds; once `now - last.timestamp` strictly
exceeds the cooldown, the call is accepted. -/
theorem cooldown_boundary (c : VolitionCore) (now : Int)
    (u team x cid : String) (last : IntentRecord)
    (htrust : trustPasses c team)
    (hlast : c.store.last_for_user u = some last)
    (hnodup : ¬(pyStrip last.text = pyStrip x ∧ now - last.timestamp ≤ c.duplicate_window)) :
    (now - last.timestamp = c.cooldown →
      c.handle_intent now u team x cid =
        (⟨false, cooldownMessage 0, c.store.recent 5⟩, c))
    ∧ (c.cooldown < now - last.timestamp →
      (c.handle_intent now u team x cid).1.accepted = true) := by
  constructor
  · intro heq
    rw [handle_intent_of_trustPasses c now u team x cid htrust,
      rate_limit_cooldown c now u team x cid last hlast hnodup (le_of_eq heq)]
    rw [heq]
    norm_num
  · intro hgt
    rw [handle_intent_of_trustPasses c now u team x cid htrust,
      rate_limit_elapsed c now u team x cid last hlast hnodup (by omega)]
    rfl

def c9record : IntentRecord := ⟨"U1", "T1", "X", 0, "c1"⟩

def c9core : VolitionCore := ⟨⟨200, [c9record]⟩, 10000000, 20000000, []⟩

/-- C9 witness: with `cooldown = 20 s` and the second (different) text
arriving exactly 20 seconds after the accepted intent, the call is
rejected with 0 remaining seconds reported. -/
theorem cooldown_boundary_witness :
    c9core.handle_intent 20000000 "U1" "T1" "Y" "c2" =
      (⟨false, cooldownMessage 0, c9core.store.recent 5⟩, c9core) :=
  (cooldown_boundary c9core 20000000 "U1" "T1" "Y" "c2" c9record
    (Or.inl rfl) rfl (by decide)).1 rfl

/-- C10: the rate-limiting rules consult only records still present in
the bounded store, via `last_for_user`.  So if every record of a user has
been evicted (`last_for_user` is `none`), a new call by that user is
accepted even when some evicted record `r` of the same user has the same
stripped text and lies within both `duplicate_window` and `cooldown` of
`now` — capacity eviction bypasses the rate limit. -/
theorem eviction_bypasses_rate_limit (c : VolitionCore) (now : Int)
    (u team x cid : String) (r : IntentRecord)
    (htrust : trustPasses c team)
    (hgone : c.store.last_for_user u = none)
    (_huser : r.user_id = u)
    (_htext : pyStrip r.text = pyStrip x)
    (_hdup : now - r.timestamp ≤ c.duplicate_window)
    (_hcool : now - r.timestamp ≤ c.cooldown) :
    (c.handle_intent now u team x cid).1.accepted = true
    ∧ (c.handle_intent now u team x cid).2.store
        = c.store.append ⟨u, team, x, now, cid⟩ := by
  rw [handle_intent_of_trustPasses c now u team x cid htrust,
    rate_limit_of_none c now u team x cid hgone]
  exact ⟨rfl, rfl⟩

def c10base : VolitionCore := ⟨⟨1, []⟩, 180000000, 20000000, []⟩

def c10afterU : VolitionCore :=
  (c10base.handle_intent 0 "U1" "T1" "ship it" "c1").2

def c10afterV : VolitionCore :=
  (c10afterU.handle_intent 1000000 "V2" "T1" "other" "c2").2

/-- C10 witness: with capacity 1, user `U1`'s accepted record is evicted
by `V2`'s accepted intent; `U1` resending the identical text 2 seconds
after the original — well inside both the 3-minute duplicate window and
the 20-second cooldown of the evicted record — is accepted. -/
theorem eviction_bypasses_rate_limit_witness :
    (c10afterV.handle_intent 2000000 "U1" "T1" "ship it" "c3").1.accepted = true :=
  (eviction_bypasses_rate_limit c10afterV 2000000 "U1" "T1" "ship it" "c3"
    ⟨"U1", "T1", "ship it", 0, "c1"⟩
    (Or.inl (by decide)) (by decide) rfl rfl (by decide) (by decide)).1

end Volition

